import Mathlib

/-!
Verification of the incident lifecycle, archival, search and analytics logic
of the network incident management system.

Timestamps are modelled as integer seconds (`Int`); the Python code compares
`datetime`/`timedelta` values, which is exact at second granularity.
`timedelta(hours=2)` is 7200 seconds, etc.  Nullable columns are `Option`s,
user references are opaque `Nat` identifiers.
-/

/-- The lifecycle fields shared by all five incident models
(`BaseIncident` in `incidents/models.py`).  Domain-specific columns play no
role in the verified logic and are omitted. -/
structure Incident where
  date_time_incident : Option Int
  date_time_recovery : Option Int
  duration_minutes : Option Int
  cause : Option String
  origin : Option String
  is_resolved : Bool
  is_archived : Bool
  archived_at : Option Int
  archived_by : Option Nat
  updated_by : Option Nat
deriving Repr, DecidableEq

/-- Whitespace characters removed by Python `str.strip()` (ASCII subset). -/
def isPyWS (c : Char) : Bool :=
  c = ' ' || c = '\t' || c = '\n' || c = '\r' || c = '\x0b' || c = '\x0c'

/-- Drop leading whitespace from a character list. -/
def dropLeadingWS : List Char → List Char
  | [] => []
  | c :: cs => if isPyWS c then dropLeadingWS cs else c :: cs

/-- Model of Python `str.strip()`: remove leading and trailing whitespace. -/
def pyStrip (s : String) : String :=
  ⟨(dropLeadingWS (dropLeadingWS s.data.reverse).reverse)⟩

/-- Model of the Python test `not field or field.strip() == ''` used on the
`cause` and `origin` columns: the field is filled when it is non-null and
non-blank after stripping. -/
def pyFilled (f : Option String) : Bool :=
  match f with
  | none => false
  | some s => !(s = "" || pyStrip s = "")

/-- `BaseIncident.can_be_archived` (`incidents/models.py` lines 245-280):
resolved, cause filled, origin filled, not already archived, and at least
2 hours (7200 s) since resolution. -/
def can_be_archived (i : Incident) (now : Int) : Bool :=
  match i.date_time_recovery with
  | none => false
  | some recovery =>
    if !pyFilled i.cause then false
    else if !pyFilled i.origin then false
    else if i.is_archived then false
    else if now - recovery < 7200 then false
    else true

/-- `BaseIncident.get_severity_display` (`incidents/models.py` lines 199-217):
"Resolved" for resolved incidents, otherwise age-tiered with thresholds
1 h / 2 h / 4 h, and "New" when the incident timestamp is missing. -/
def get_severity_display (i : Incident) (now : Int) : String :=
  if i.is_resolved then "Resolved"
  else
    match i.date_time_incident with
    | none => "New"
    | some t =>
      let age := now - t
      if age < 3600 then "New"
      else if age < 7200 then "Low Severity"
      else if age < 14400 then "Medium Severity"
      else "Critical"

/-- `BaseIncident.calculate_duration` (`incidents/models.py` lines 137-142):
when the incident timestamp is present, the duration in minutes is the
truncated division of the elapsed seconds, ending at recovery or at `now`.
Python `int()` truncates toward zero, i.e. `Int.tdiv`. -/
def calculate_duration (i : Incident) (now : Int) : Incident :=
  match i.date_time_incident with
  | none => i
  | some start =>
    let endTime := i.date_time_recovery.getD now
    { i with duration_minutes := some (Int.tdiv (endTime - start) 60) }

/-- `BaseIncident.save` (`incidents/models.py` lines 131-135): recompute the
duration, then set `is_resolved := bool(date_time_recovery)`
(`update_resolution_status`, lines 144-146). -/
def saveIncident (i : Incident) (now : Int) : Incident :=
  let i1 := calculate_duration i now
  { i1 with is_resolved := i1.date_time_recovery.isSome }

/-- A concrete incident used to exercise the archival boundary: resolved at
time 0, cause and origin filled, not archived. -/
def boundaryIncident : Incident :=
  { date_time_incident := some (-600)
    date_time_recovery := some 0
    duration_minutes := some 10
    cause := some "Power Failure"
    origin := some "Internal System"
    is_resolved := true
    is_archived := false
    archived_at := none
    archived_by := none
    updated_by := none }

lemma pyStrip_empty : pyStrip "" = "" := rfl

/-- A filled field is exactly a present field that is non-blank after
stripping (a blank string strips to the empty string). -/
lemma pyFilled_iff (f : Option String) :
    pyFilled f = true ↔ ∃ s, f = some s ∧ pyStrip s ≠ "" := by
  cases f with
  | none => simp [pyFilled]
  | some s =>
    constructor
    · intro h
      refine ⟨s, rfl, fun hps => ?_⟩
      simp [pyFilled, hps] at h
    · rintro ⟨s2, hs2, h2⟩
      cases Option.some.inj hs2
      have hne : s ≠ "" := fun he => h2 (he ▸ pyStrip_empty)
      simp [pyFilled, hne, h2]

/-- Boolean structure of `can_be_archived`: the early-return chain is the
conjunction of the five conditions. -/
lemma can_be_archived_eq (i : Incident) (now : Int) :
    can_be_archived i now = true ↔
      (∃ r, i.date_time_recovery = some r ∧ 7200 ≤ now - r)
      ∧ pyFilled i.cause = true ∧ pyFilled i.origin = true
      ∧ i.is_archived = false := by
  cases hrec : i.date_time_recovery with
  | none => simp [can_be_archived, hrec]
  | some r =>
    simp only [can_be_archived, hrec]
    by_cases hc : pyFilled i.cause <;> by_cases ho : pyFilled i.origin <;>
      cases harch : i.is_archived <;> by_cases ht : now - r < 7200 <;>
        simp_all

/-- C1: `can_be_archived` is true iff all five conditions hold: resolution
timestamp present and at least 2 hours old, cause non-blank after stripping,
origin non-blank after stripping, and not already archived; at exactly
2h00m00s after resolution it is true, at 1h59m59s it is false. -/
theorem can_archive_iff_five_conditions :
    (∀ (i : Incident) (now : Int),
      can_be_archived i now = true ↔
        ((∃ r, i.date_time_recovery = some r ∧ 7200 ≤ now - r)
          ∧ (∃ c, i.cause = some c ∧ pyStrip c ≠ "")
          ∧ (∃ o, i.origin = some o ∧ pyStrip o ≠ "")
          ∧ i.is_archived = false))
    ∧ can_be_archived boundaryIncident 7200 = true
    ∧ can_be_archived boundaryIncident 7199 = false := by
  refine ⟨fun i now => ?_, by decide, by decide⟩
  rw [can_be_archived_eq, pyFilled_iff, pyFilled_iff]

/-- A plain unresolved incident that occurred at time 0. -/
def plainActiveIncident : Incident :=
  { date_time_incident := some 0
    date_time_recovery := none
    duration_minutes := none
    cause := none
    origin := none
    is_resolved := false
    is_archived := false
    archived_at := none
    archived_by := none
    updated_by := none }

/-- An unresolved incident with a missing incident timestamp. -/
def nullTimestampIncident : Incident :=
  { plainActiveIncident with date_time_incident := none }

/-- C2: severity classification: "Resolved" whenever the incident is
resolved; otherwise the four tiers New / Low / Medium / Critical with
half-open boundaries at 1 h, 2 h, 4 h of elapsed time, and "New" when the
incident timestamp is null. -/
theorem severity_classification_tiers (i : Incident) (now : Int) :
    (i.is_resolved = true → get_severity_display i now = "Resolved")
    ∧ (i.is_resolved = false → i.date_time_incident = none →
        get_severity_display i now = "New")
    ∧ (∀ t, i.is_resolved = false → i.date_time_incident = some t →
        ((now - t < 3600 → get_severity_display i now = "New")
        ∧ (3600 ≤ now - t → now - t < 7200 →
            get_severity_display i now = "Low Severity")
        ∧ (7200 ≤ now - t → now - t < 14400 →
            get_severity_display i now = "Medium Severity")
        ∧ (14400 ≤ now - t → get_severity_display i now = "Critical"))) := by
  refine ⟨fun hres => ?_, fun hres hnone => ?_, fun t hres ht => ?_⟩
  · simp [get_severity_display, hres]
  · simp [get_severity_display, hres, hnone]
  · refine ⟨fun h1 => ?_, fun h1 h2 => ?_, fun h1 h2 => ?_, fun h1 => ?_⟩ <;>
      · simp only [get_severity_display, hres, ht, Bool.false_eq_true,
          if_false]
        split_ifs <;> first | rfl | omega

/-- Boundary witnesses for the severity tiers: exactly 1 h is Low (not New),
3599 s is New, exactly 2 h is Medium, exactly 4 h is Critical, a resolved
incident is Resolved at any age, and a null timestamp gives New. -/
theorem severity_classification_tiers_check :
    get_severity_display plainActiveIncident 3600 = "Low Severity"
    ∧ get_severity_display plainActiveIncident 3599 = "New"
    ∧ get_severity_display plainActiveIncident 7200 = "Medium Severity"
    ∧ get_severity_display plainActiveIncident 14400 = "Critical"
    ∧ get_severity_display boundaryIncident 999999999 = "Resolved"
    ∧ get_severity_display nullTimestampIncident 5 = "New" := by
  refine ⟨?_, ?_, ?_, ?_, ?_, ?_⟩
  · exact ((severity_classification_tiers plainActiveIncident 3600).2.2 0
      rfl rfl).2.1 (by decide) (by decide)
  · exact ((severity_classification_tiers plainActiveIncident 3599).2.2 0
      rfl rfl).1 (by decide)
  · exact ((severity_classification_tiers plainActiveIncident 7200).2.2 0
      rfl rfl).2.2.1 (by decide) (by decide)
  · exact ((severity_classification_tiers plainActiveIncident 14400).2.2 0
      rfl rfl).2.2.2 (by decide)
  · exact (severity_classification_tiers boundaryIncident 999999999).1 rfl
  · exact (severity_classification_tiers nullTimestampIncident 5).2.1 rfl rfl

/-- An incident whose recovery timestamp lies before its incident
timestamp (2 hours earlier): corrupted data the code does not guard
against. -/
def invertedTimesIncident : Incident :=
  { plainActiveIncident with
    date_time_incident := some 7200
    date_time_recovery := some 0 }

/-- C3 counterexample: with a recovery timestamp 2 hours before the incident
timestamp, the duration recomputed on save is -120 minutes, which is
negative; the code has no clamp. -/
theorem duration_negative_on_inverted_timestamps :
    (saveIncident invertedTimesIncident 0).duration_minutes = some (-120)
    ∧ ((-120 : Int) < 0) := by
  constructor
  · rfl
  · decide

/-- C3 amended: the duration recomputed on save is non-negative whenever the
incident timestamp does not exceed the end of the measured interval
(the recovery timestamp when present, otherwise `now`). -/
theorem duration_nonneg_of_ordered_timestamps (i : Incident) (now start : Int)
    (hstart : i.date_time_incident = some start)
    (hle : start ≤ i.date_time_recovery.getD now) :
    ∃ d, (saveIncident i now).duration_minutes = some d ∧ 0 ≤ d := by
  refine ⟨Int.tdiv (i.date_time_recovery.getD now - start) 60, ?_, ?_⟩
  · simp [saveIncident, calculate_duration, hstart]
  · exact Int.tdiv_nonneg (by omega) (by decide)

/-- Witness for the amended C3 at a concrete incident resolved 10 minutes
after it occurred. -/
theorem duration_nonneg_of_ordered_timestamps_check :
    ∃ d, (saveIncident boundaryIncident 0).duration_minutes = some d ∧ 0 ≤ d :=
  duration_nonneg_of_ordered_timestamps boundaryIncident 0 (-600) rfl
    (by decide)

/-- C7: after any save, the stored `is_resolved` flag is exactly "the
recovery timestamp is non-null", whatever the record looked like before. -/
theorem is_resolved_matches_recovery_after_save (i : Incident) (now : Int) :
    (saveIncident i now).is_resolved
      = (saveIncident i now).date_time_recovery.isSome := by
  cases hm : i.date_time_incident <;>
    simp [saveIncident, calculate_duration, hm]

/-- `BaseIncident.archive` (`incidents/models.py` lines 282-315): raises
(`none`) unless `can_be_archived`; otherwise marks the record archived,
stamps `archived_at`, `archived_by`, `updated_by` and saves. -/
def archiveIncident (i : Incident) (user : Nat) (now : Int) : Option Incident :=
  if can_be_archived i now then
    some (saveIncident
      { i with
          is_archived := true
          archived_at := some now
          archived_by := some user
          updated_by := some user } now)
  else none

/-- `BaseIncident.restore` (`incidents/models.py` lines 317-343): returns
failure (`none`) when the record is not archived; otherwise clears the
archival fields, stamps `updated_by` and saves. -/
def restoreIncident (i : Incident) (user : Nat) (now : Int) : Option Incident :=
  if i.is_archived then
    some (saveIncident
      { i with
          is_archived := false
          archived_at := none
          archived_by := none
          updated_by := some user } now)
  else none

/-- Saving never touches the archival, audit or classification columns,
only `duration_minutes` and `is_resolved`. -/
lemma saveIncident_fields (j : Incident) (now : Int) :
    (saveIncident j now).is_archived = j.is_archived
    ∧ (saveIncident j now).archived_at = j.archived_at
    ∧ (saveIncident j now).archived_by = j.archived_by
    ∧ (saveIncident j now).updated_by = j.updated_by
    ∧ (saveIncident j now).date_time_recovery = j.date_time_recovery
    ∧ (saveIncident j now).cause = j.cause
    ∧ (saveIncident j now).origin = j.origin := by
  cases hm : j.date_time_incident <;>
    simp [saveIncident, calculate_duration, hm]

/-- An archived record always fails `can_be_archived` (fourth condition). -/
lemma can_be_archived_false_of_archived (i : Incident) (now : Int)
    (h : i.is_archived = true) : can_be_archived i now = false := by
  cases hrec : i.date_time_recovery <;> simp [can_be_archived, hrec, h]

/-- C6: `archive` fails whenever `can_be_archived` is false — in particular
on an already-archived record — and `restore` fails on a non-archived
record; a successful restore clears `is_archived`, `archived_at`,
`archived_by` and stamps `updated_by` with the actor. -/
theorem archive_restore_failure_modes (i : Incident) (user : Nat) (now : Int) :
    (can_be_archived i now = false → archiveIncident i user now = none)
    ∧ (i.is_archived = true → archiveIncident i user now = none)
    ∧ (i.is_archived = false → restoreIncident i user now = none)
    ∧ (i.is_archived = true →
        ∃ j, restoreIncident i user now = some j
          ∧ j.is_archived = false ∧ j.archived_at = none
          ∧ j.archived_by = none ∧ j.updated_by = some user) := by
  refine ⟨fun h => by simp [archiveIncident, h],
    fun h => by
      simp [archiveIncident, can_be_archived_false_of_archived i now h],
    fun h => by simp [restoreIncident, h],
    fun h => ?_⟩
  refine ⟨saveIncident
      { i with
          is_archived := false
          archived_at := none
          archived_by := none
          updated_by := some user } now, by simp [restoreIncident, h],
    ?_, ?_, ?_, ?_⟩
  · exact ((saveIncident_fields _ _).1).trans rfl
  · exact ((saveIncident_fields _ _).2.1).trans rfl
  · exact ((saveIncident_fields _ _).2.2.1).trans rfl
  · exact ((saveIncident_fields _ _).2.2.2.1).trans rfl

/-- An archived concrete record (the boundary incident after archival). -/
def archivedIncident : Incident :=
  { boundaryIncident with
    is_archived := true
    archived_at := some 7200
    archived_by := some 1
    updated_by := some 1 }

/-- Witness for C6 at concrete records: archiving an ineligible record and
an already-archived record both fail, restoring a non-archived record
fails, and restoring an archived record clears the archival fields. -/
theorem archive_restore_failure_modes_check :
    archiveIncident nullTimestampIncident 7 0 = none
    ∧ archiveIncident archivedIncident 7 99999 = none
    ∧ restoreIncident boundaryIncident 7 0 = none
    ∧ ∃ j, restoreIncident archivedIncident 7 8000 = some j
        ∧ j.is_archived = false ∧ j.archived_at = none
        ∧ j.archived_by = none ∧ j.updated_by = some 7 :=
  ⟨(archive_restore_failure_modes nullTimestampIncident 7 0).1 (by decide),
    (archive_restore_failure_modes archivedIncident 7 99999).2.1 rfl,
    (archive_restore_failure_modes boundaryIncident 7 0).2.2.1 rfl,
    (archive_restore_failure_modes archivedIncident 7 8000).2.2.2 rfl⟩

/-- The pre-filter of `auto_archive_eligible_incidents`
(`incidents/tasks.py` lines 74-81): resolved, not archived, recovery
timestamp present, and neither cause nor origin null or empty. -/
def sweepPrefilter (i : Incident) : Bool :=
  i.is_resolved && !i.is_archived && i.date_time_recovery.isSome
    && !(i.cause.isNone || i.cause = some ""
          || i.origin.isNone || i.origin = some "")

/-- One iteration of the sweep loop (`incidents/tasks.py` lines 86-96):
a pre-filtered record passing `can_be_archived` is archived; every other
record is left untouched.  The second component counts archivals. -/
def auto_archive_step (user : Nat) (now : Int) (i : Incident) :
    Incident × Nat :=
  if sweepPrefilter i && can_be_archived i now then
    match archiveIncident i user now with
    | some j => (j, 1)
    | none => (i, 0)
  else (i, 0)

/-- `auto_archive_eligible_incidents` over a collection of records at a
fixed time: archive each eligible record, count `total_archived`. -/
def auto_archive_sweep (incidents : List Incident) (user : Nat) (now : Int) :
    List Incident × Nat :=
  match incidents with
  | [] => ([], 0)
  | i :: rest =>
    let p := auto_archive_step user now i
    let q := auto_archive_sweep rest user now
    (p.1 :: q.1, p.2 + q.2)

/-- After one step, a record is never again eligible: either it was just
archived (and so fails the not-archived condition) or it was ineligible and
is unchanged. -/
lemma auto_archive_step_not_eligible (user : Nat) (now : Int) (i : Incident) :
    (sweepPrefilter (auto_archive_step user now i).1
      && can_be_archived (auto_archive_step user now i).1 now) = false := by
  by_cases h : (sweepPrefilter i && can_be_archived i now) = true
  · have hcan : can_be_archived i now = true :=
      ((Bool.and_eq_true _ _).mp h).2
    have harch :
        (saveIncident
          { i with
              is_archived := true
              archived_at := some now
              archived_by := some user
              updated_by := some user } now).is_archived = true :=
      ((saveIncident_fields _ _).1).trans rfl
    have hstep : (auto_archive_step user now i).1 =
        saveIncident
          { i with
              is_archived := true
              archived_at := some now
              archived_by := some user
              updated_by := some user } now := by
      simp [auto_archive_step, h, archiveIncident, hcan,
        ((Bool.and_eq_true _ _).mp h).1]
    rw [hstep, can_be_archived_false_of_archived _ now harch]
    simp
  · have hb : (sweepPrefilter i && can_be_archived i now) = false :=
      Bool.eq_false_iff.mpr h
    simp [auto_archive_step, hb]

/-- C5: the sweep is idempotent: running it a second time on the output of
a first run, at the same time and with no intervening mutations, archives
nothing (`total_archived = 0`). -/
theorem sweep_second_run_archives_nothing
    (incidents : List Incident) (user : Nat) (now : Int) :
    (auto_archive_sweep
      (auto_archive_sweep incidents user now).1 user now).2 = 0 := by
  induction incidents with
  | nil => rfl
  | cons i rest ih =>
    simp only [auto_archive_sweep]
    rw [auto_archive_step, auto_archive_step_not_eligible]
    simpa using ih

/-- `IncidentSearchService._apply_status_filter`
(`incidents/services.py` lines 103-149) as a per-record predicate over
`(date_time_recovery, date_time_incident)`.  The Django queryset bounds are
closed on both sides (`__gte` / `__lte`); a null column never matches a
comparison filter.  An unknown status leaves the queryset unfiltered. -/
def statusFilterMatch (status : String) (i : Incident) (now : Int) : Bool :=
  if status = "active" then i.date_time_recovery.isNone
  else if status = "resolved" then i.date_time_recovery.isSome
  else if status = "new" then
    i.date_time_recovery.isNone
      && (Option.any (fun t => decide (now - 3600 ≤ t)) i.date_time_incident)
  else if status = "low" then
    i.date_time_recovery.isNone
      && (Option.any (fun t =>
            decide (t ≤ now - 3600) && decide (now - 7200 ≤ t))
          i.date_time_incident)
  else if status = "medium" then
    i.date_time_recovery.isNone
      && (Option.any (fun t =>
            decide (t ≤ now - 7200) && decide (now - 14400 ≤ t))
          i.date_time_incident)
  else if status = "critical" then
    i.date_time_recovery.isNone
      && (Option.any (fun t => decide (t ≤ now - 14400)) i.date_time_incident)
  else true

/-- C4 divergence: an unresolved incident exactly 1 hour old matches both
the "new" and the "low" status buckets (the filters use closed bounds on
both sides), while the severity classification of the same record at the
same time is "Low Severity" — so the buckets neither agree with the
severity tiers nor partition the unresolved records. -/
theorem status_buckets_overlap_at_one_hour :
    statusFilterMatch "new" plainActiveIncident 3600 = true
    ∧ statusFilterMatch "low" plainActiveIncident 3600 = true
    ∧ get_severity_display plainActiveIncident 3600 = "Low Severity" := by
  refine ⟨by decide, by decide, ?_⟩
  exact ((severity_classification_tiers plainActiveIncident 3600).2.2 0
    rfl rfl).2.1 (by decide) (by decide)


/-- Model of Python `int()` applied to an exact rational value: truncation
toward zero (floor for non-negative values, ceiling for negative ones). -/
def pyTruncQ (q : ℚ) : ℤ := if 0 ≤ q then ⌊q⌋ else ⌈q⌉

/-- Model of Python `%` on numbers: `a - b * floor(a / b)`. -/
def pyModQ (a b : ℚ) : ℚ := a - b * (⌊a / b⌋ : ℚ)

/-- The formatting tail of `calculate_average_resolution_time`
(`dashboard/views.py` lines 230-241): minutes under an hour, hours and
minutes under a day, days and hours otherwise. -/
def format_avg_minutes (avg : ℚ) : String :=
  if avg < 60 then toString (pyTruncQ avg) ++ "m"
  else if avg < 1440 then
    toString (pyTruncQ (avg / 60)) ++ "h "
      ++ toString (pyTruncQ (pyModQ avg 60)) ++ "m"
  else
    toString (pyTruncQ (avg / 1440)) ++ "d "
      ++ toString (pyTruncQ (pyModQ avg 1440 / 60)) ++ "h"

/-- The accumulation loop of `calculate_average_resolution_time`
(`dashboard/views.py` lines 214-226): over records with a non-null recovery
timestamp `>= since`, count and sum the durations, skipping records whose
`duration_minutes` is falsy in Python — null **or zero**. -/
def mttrFold : List Incident → Int → Nat × Int
  | [], _ => (0, 0)
  | i :: rest, since =>
    let q := mttrFold rest since
    let hd : Nat × Int :=
      match i.date_time_recovery with
      | none => (0, 0)
      | some r =>
        if since ≤ r then
          match i.duration_minutes with
          | none => (0, 0)
          | some d => if d = 0 then (0, 0) else (1, d)
        else (0, 0)
    (hd.1 + q.1, hd.2 + q.2)

/-- `calculate_average_resolution_time` (`dashboard/views.py` lines
211-246): the mean of the accumulated durations, "N/A" when the count is
zero. -/
def calculate_average_resolution_time
    (incidents : List Incident) (since : Int) : String :=
  if 0 < (mttrFold incidents since).1 then
    format_avg_minutes
      (((mttrFold incidents since).2 : ℚ)
        / (((mttrFold incidents since).1 : Nat) : ℚ))
  else "N/A"

/-- The claim's selection, written from the spec: every resolved record
with `resolved_at >= since` and a non-null duration contributes, including
zero durations. -/
def mttrSpecFold : List Incident → Int → Nat × Int
  | [], _ => (0, 0)
  | i :: rest, since =>
    let q := mttrSpecFold rest since
    let hd : Nat × Int :=
      match i.date_time_recovery with
      | none => (0, 0)
      | some r =>
        if since ≤ r then
          match i.duration_minutes with
          | none => (0, 0)
          | some d => (1, d)
        else (0, 0)
    (hd.1 + q.1, hd.2 + q.2)

/-- `mttr` as the spec words it: mean of `duration_minutes` over the
resolved records with `resolved_at >= since`, "N/A" only when there are
none. -/
def mttr_spec (incidents : List Incident) (since : Int) : String :=
  if 0 < (mttrSpecFold incidents since).1 then
    format_avg_minutes
      (((mttrSpecFold incidents since).2 : ℚ)
        / (((mttrSpecFold incidents since).1 : Nat) : ℚ))
  else "N/A"

/-- A resolved record whose resolution took under half a minute, so its
truncated duration is 0 minutes. -/
def zeroDurationIncident : Incident :=
  { boundaryIncident with
    date_time_incident := some (-20)
    duration_minutes := some 0 }

/-- C8 counterexample: a single resolved record with `resolved_at >= since`
and duration 0 yields "N/A" from the code (Python truthiness of
`duration_minutes` drops zero durations), while the mean over the resolved
records selected by the claim is defined and formats as "0m". -/
theorem mttr_drops_zero_durations :
    calculate_average_resolution_time [zeroDurationIncident] 0 = "N/A"
    ∧ mttr_spec [zeroDurationIncident] 0 = "0m"
    ∧ zeroDurationIncident.date_time_recovery = some 0 := by
  refine ⟨by decide, ?_, by decide⟩
  have h1 : mttrSpecFold [zeroDurationIncident] 0 = (1, 0) := rfl
  have h2 : (((0 : ℤ) : ℚ) / (((1 : Nat) : Nat) : ℚ)) = 0 := by norm_num
  simp only [mttr_spec, h1]
  rw [if_pos (by norm_num), h2]
  simp only [format_avg_minutes]
  rw [if_pos (by norm_num : (0 : ℚ) < 60)]
  have h3 : pyTruncQ 0 = 0 := by
    simp [pyTruncQ]
  rw [h3]
  rfl

/-- The records the code actually averages over: recovery present and
`>= since`, duration present and non-zero. -/
def mttrEligible (since : Int) (i : Incident) : Bool :=
  (Option.any (fun r => decide (since ≤ r)) i.date_time_recovery)
    && (Option.any (fun d => decide (d ≠ 0)) i.duration_minutes)

/-- The accumulation loop computes the length and duration sum of the
eligible sublist. -/
lemma mttrFold_eq (incidents : List Incident) (since : Int) :
    mttrFold incidents since =
      ((incidents.filter (mttrEligible since)).length,
        ((incidents.filter (mttrEligible since)).map
          (fun i => i.duration_minutes.getD 0)).sum) := by
  induction incidents with
  | nil => rfl
  | cons i rest ih =>
    simp only [mttrFold, ih, List.filter_cons]
    cases hrec : i.date_time_recovery with
    | none => simp [mttrEligible, hrec]
    | some r =>
      by_cases hr : since ≤ r
      · cases hdur : i.duration_minutes with
        | none => simp [mttrEligible, hrec, hdur, hr]
        | some d =>
          by_cases hd : d = 0
          · simp [mttrEligible, hrec, hdur, hr, hd]
          · simp [mttrEligible, hrec, hdur, hr, hd]
            omega
      · simp [mttrEligible, hrec, hr]

/-- C8 amended: `calculate_average_resolution_time` returns "N/A" exactly
when no record is resolved at or after `since` with a non-null, non-zero
duration, and otherwise returns the formatted arithmetic mean of the
durations of exactly those records. -/
theorem mttr_mean_over_nonzero_durations
    (incidents : List Incident) (since : Int) :
    (incidents.filter (mttrEligible since) = [] →
      calculate_average_resolution_time incidents since = "N/A")
    ∧ (incidents.filter (mttrEligible since) ≠ [] →
      calculate_average_resolution_time incidents since =
        format_avg_minutes
          (((((incidents.filter (mttrEligible since)).map
              (fun i => i.duration_minutes.getD 0)).sum : ℤ) : ℚ)
            / ((((incidents.filter (mttrEligible since)).length : Nat))
                : ℚ))) := by
  constructor
  · intro h
    simp only [calculate_average_resolution_time, mttrFold_eq, h]
    rfl
  · intro h
    have hlen : 0 < (incidents.filter (mttrEligible since)).length :=
      List.length_pos.mpr h
    simp only [calculate_average_resolution_time, mttrFold_eq]
    rw [if_pos hlen]

/-- Witness for the amended C8: the zero-duration record alone gives "N/A";
a record resolved in 10 minutes gives the formatted mean over the eligible
singleton. -/
theorem mttr_mean_over_nonzero_durations_check :
    calculate_average_resolution_time [zeroDurationIncident] 0 = "N/A"
    ∧ calculate_average_resolution_time [boundaryIncident] 0 =
        format_avg_minutes
          ((((([boundaryIncident].filter (mttrEligible 0)).map
              (fun i => i.duration_minutes.getD 0)).sum : ℤ) : ℚ)
            / (((([boundaryIncident].filter (mttrEligible 0)).length : Nat))
                : ℚ)) :=
  ⟨(mttr_mean_over_nonzero_durations [zeroDurationIncident] 0).1 (by decide),
    (mttr_mean_over_nonzero_durations [boundaryIncident] 0).2 (by decide)⟩

/-- Per-network counts of active incidents by severity tier, as assembled
by the dashboard statistics. -/
structure SeverityCounts where
  new : Nat
  low : Nat
  medium : Nat
  critical : Nat
deriving Repr, DecidableEq

/-- `get_network_health_score` (`dashboard/views.py` lines 669-706) for one
network: 100 when there are no incidents; otherwise the severity-weighted
score over `max(active, 1)`, damped by the active ratio, passed through
Python `int()` (truncation) and clamped to `[0, 100]`. -/
def get_network_health_score
    (total active : Nat) (counts : SeverityCounts) : ℤ :=
  if total = 0 then 100
  else
    max 0 (min 100 (pyTruncQ
      ((1 - ((active : ℚ) / (total : ℚ)) * (1/2))
        * (((9/10 : ℚ) * (counts.new : ℚ) + (7/10 : ℚ) * (counts.low : ℚ)
            + (4/10 : ℚ) * (counts.medium : ℚ)
            + (1/10 : ℚ) * (counts.critical : ℚ))
          / ((max active 1 : Nat) : ℚ)) * 100)))

/-- `get_health_status` (`dashboard/views.py` lines 709-720): the status
label thresholds 90 / 75 / 60 / 40. -/
def get_health_status (score : ℤ) : String :=
  if 90 ≤ score then "Excellent"
  else if 75 ≤ score then "Good"
  else if 60 ≤ score then "Fair"
  else if 40 ≤ score then "Poor"
  else "Critical"

/-- Rounding to the nearest integer (halves up), as the claim's
`round(...)` reads. -/
def specRound (q : ℚ) : ℤ := ⌊q + 1/2⌋

/-- The health-score formula as the claim words it, with `round` in place
of the code's truncation. -/
def health_score_spec
    (total active : Nat) (counts : SeverityCounts) : ℤ :=
  if total = 0 then 100
  else
    max 0 (min 100 (specRound
      ((1 - ((active : ℚ) / (total : ℚ)) * (1/2))
        * (((9/10 : ℚ) * (counts.new : ℚ) + (7/10 : ℚ) * (counts.low : ℚ)
            + (4/10 : ℚ) * (counts.medium : ℚ)
            + (1/10 : ℚ) * (counts.critical : ℚ))
          / ((max active 1 : Nat) : ℚ)) * 100)))

/-- C9 counterexample: with 2 incidents, 1 active and classified New, the
raw score is exactly 67.5; the code's `int()` truncates to 67 while the
claim's `round(...)` gives 68. -/
theorem health_score_truncates_not_rounds :
    get_network_health_score 2 1 ⟨1, 0, 0, 0⟩ = 67
    ∧ health_score_spec 2 1 ⟨1, 0, 0, 0⟩ = 68 := by
  have harg :
      ((1 - (((1 : Nat) : ℚ) / ((2 : Nat) : ℚ)) * (1/2))
        * (((9/10 : ℚ) * ((1 : Nat) : ℚ) + (7/10 : ℚ) * ((0 : Nat) : ℚ)
            + (4/10 : ℚ) * ((0 : Nat) : ℚ) + (1/10 : ℚ) * ((0 : Nat) : ℚ))
          / ((max 1 1 : Nat) : ℚ)) * 100) = 135 / 2 := by
    norm_num
  constructor
  · simp only [get_network_health_score]
    rw [if_neg (by decide), harg]
    have : pyTruncQ (135 / 2) = 67 := by
      rw [pyTruncQ, if_pos (by norm_num)]
      norm_num [Int.floor_eq_iff]
    rw [this]
    decide
  · simp only [health_score_spec]
    rw [if_neg (by decide), harg]
    have : specRound (135 / 2) = 68 := by
      rw [specRound]
      norm_num [Int.floor_eq_iff]
    rw [this]
    decide

/-- C9 amended: the health score is 100 on an empty network, otherwise the
damped severity-weighted formula passed through truncation (not rounding)
and clamped; it lies in `[0, 100]` for every input, and the status labels
follow the 90 / 75 / 60 / 40 thresholds. -/
theorem health_score_clamped_and_labelled
    (total active : Nat) (counts : SeverityCounts) :
    (0 ≤ get_network_health_score total active counts
      ∧ get_network_health_score total active counts ≤ 100)
    ∧ (total = 0 → get_network_health_score total active counts = 100)
    ∧ (total ≠ 0 → get_network_health_score total active counts =
        max 0 (min 100 (pyTruncQ
          ((1 - ((active : ℚ) / (total : ℚ)) * (1/2))
            * (((9/10 : ℚ) * (counts.new : ℚ)
                + (7/10 : ℚ) * (counts.low : ℚ)
                + (4/10 : ℚ) * (counts.medium : ℚ)
                + (1/10 : ℚ) * (counts.critical : ℚ))
              / ((max active 1 : Nat) : ℚ)) * 100))))
    ∧ (∀ s : ℤ,
        (90 ≤ s → get_health_status s = "Excellent")
        ∧ (75 ≤ s → s < 90 → get_health_status s = "Good")
        ∧ (60 ≤ s → s < 75 → get_health_status s = "Fair")
        ∧ (40 ≤ s → s < 60 → get_health_status s = "Poor")
        ∧ (s < 40 → get_health_status s = "Critical")) := by
  refine ⟨?_, fun h => by simp [get_network_health_score, h], fun h => by
    simp only [get_network_health_score, if_neg h], fun s => ?_⟩
  · by_cases h : total = 0
    · simp [get_network_health_score, h]
    · simp only [get_network_health_score, if_neg h]
      exact ⟨le_max_left _ _,
        max_le (by norm_num) (min_le_left _ _)⟩
  · refine ⟨fun h90 => ?_, fun h75 h90 => ?_, fun h60 h75 => ?_,
      fun h40 h60 => ?_, fun h40 => ?_⟩
    · simp only [get_health_status]
      rw [if_pos h90]
    · simp only [get_health_status]
      rw [if_neg (by omega), if_pos h75]
    · simp only [get_health_status]
      rw [if_neg (by omega), if_neg (by omega), if_pos h60]
    · simp only [get_health_status]
      rw [if_neg (by omega), if_neg (by omega), if_neg (by omega),
        if_pos h40]
    · simp only [get_health_status]
      rw [if_neg (by omega), if_neg (by omega), if_neg (by omega),
        if_neg (by omega)]

/-- Witness for the amended C9 at concrete inputs: bounds and the truncated
formula at `(total, active) = (2, 1)` with one New incident, the empty
network, and one score in each label band. -/
theorem health_score_clamped_and_labelled_check :
    (0 ≤ get_network_health_score 2 1 ⟨1, 0, 0, 0⟩
      ∧ get_network_health_score 2 1 ⟨1, 0, 0, 0⟩ ≤ 100)
    ∧ get_network_health_score 0 3 ⟨0, 1, 2, 3⟩ = 100
    ∧ get_network_health_score 2 1 ⟨1, 0, 0, 0⟩ =
        max 0 (min 100 (pyTruncQ
          ((1 - (((1 : Nat) : ℚ) / ((2 : Nat) : ℚ)) * (1/2))
            * (((9/10 : ℚ) * ((1 : Nat) : ℚ) + (7/10 : ℚ) * ((0 : Nat) : ℚ)
                + (4/10 : ℚ) * ((0 : Nat) : ℚ)
                + (1/10 : ℚ) * ((0 : Nat) : ℚ))
              / ((max 1 1 : Nat) : ℚ)) * 100)))
    ∧ get_health_status 95 = "Excellent"
    ∧ get_health_status 80 = "Good"
    ∧ get_health_status 65 = "Fair"
    ∧ get_health_status 45 = "Poor"
    ∧ get_health_status 10 = "Critical" :=
  ⟨(health_score_clamped_and_labelled 2 1 ⟨1, 0, 0, 0⟩).1,
    (health_score_clamped_and_labelled 0 3 ⟨0, 1, 2, 3⟩).2.1 rfl,
    (health_score_clamped_and_labelled 2 1 ⟨1, 0, 0, 0⟩).2.2.1 (by decide),
    ((health_score_clamped_and_labelled 0 0 ⟨0, 0, 0, 0⟩).2.2.2 95).1
      (by decide),
    ((health_score_clamped_and_labelled 0 0 ⟨0, 0, 0, 0⟩).2.2.2 80).2.1
      (by decide) (by decide),
    ((health_score_clamped_and_labelled 0 0 ⟨0, 0, 0, 0⟩).2.2.2 65).2.2.1
      (by decide) (by decide),
    ((health_score_clamped_and_labelled 0 0 ⟨0, 0, 0, 0⟩).2.2.2 45).2.2.2.1
      (by decide) (by decide),
    ((health_score_clamped_and_labelled 0 0 ⟨0, 0, 0, 0⟩).2.2.2 10).2.2.2.2
      (by decide)⟩

/-- C10: a non-empty network in which every incident is resolved (no active
incidents, all severity counts zero) scores 0 — the worst score — with
status label "Critical", not 100. -/
theorem resolved_only_network_scores_critical (total : Nat)
    (h : 0 < total) :
    get_network_health_score total 0 ⟨0, 0, 0, 0⟩ = 0
    ∧ get_health_status (get_network_health_score total 0 ⟨0, 0, 0, 0⟩)
        = "Critical" := by
  have ht : total ≠ 0 := by omega
  have hs : get_network_health_score total 0 ⟨0, 0, 0, 0⟩ = 0 := by
    simp only [get_network_health_score, if_neg ht]
    have harg :
        ((1 - (((0 : Nat) : ℚ) / ((total : Nat) : ℚ)) * (1/2))
          * (((9/10 : ℚ) * ((0 : Nat) : ℚ) + (7/10 : ℚ) * ((0 : Nat) : ℚ)
              + (4/10 : ℚ) * ((0 : Nat) : ℚ)
              + (1/10 : ℚ) * ((0 : Nat) : ℚ))
            / ((max 0 1 : Nat) : ℚ)) * 100) = 0 := by
      norm_num
    rw [harg]
    have hz : pyTruncQ 0 = 0 := by simp [pyTruncQ]
    rw [hz]
    decide
  refine ⟨hs, ?_⟩
  rw [hs]
  decide

/-- Witness for C10 at a concrete total of 5 incidents, all resolved. -/
theorem resolved_only_network_scores_critical_check :
    get_network_health_score 5 0 ⟨0, 0, 0, 0⟩ = 0
    ∧ get_health_status (get_network_health_score 5 0 ⟨0, 0, 0, 0⟩)
        = "Critical" :=
  resolved_only_network_scores_critical 5 (by decide)
